import Mathlib

set_option autoImplicit false

/-!
Shallow embedding of the client-side real-time synchronization and
workflow-gating layer of the snag-tracking application: the web client
(`frontend/src/App.js`) and the mobile client (`SnagDetailScreen` in the
Expo app). Pure functions are translated directly; the stateful
WebSocketProvider is modelled as explicit state with a step function over
its callbacks. JS strings are `List Char`, ISO timestamp strings are
`Option Nat` (only presence and identity matter here).
-/

/-- The `status` field of a snag: `'open' | 'in_progress' | 'resolved' | 'verified'`. -/
inductive Status where
  | open_
  | in_progress
  | resolved
  | verified
  deriving DecidableEq, Repr

/-- User roles: `'manager' | 'inspector' | 'contractor' | 'authority'`. -/
inductive Role where
  | manager
  | inspector
  | contractor
  | authority
  deriving DecidableEq, Repr

/-- The snag fields used by the synchronization and workflow layer. Text
fields that may be null/undefined in JS are `Option (List Char)`;
timestamps are `Option Nat`. -/
structure Snag where
  id : Nat
  query_no : Nat
  description : Option (List Char) := none
  location : Option (List Char) := none
  project_name : Option (List Char) := none
  status : Status := .open_
  assigned_contractor_id : Option Nat := none
  contractor_completed : Bool := false
  authority_approved : Bool := false
  work_started_date : Option Nat := none
  work_completed_date : Option Nat := none
  contractor_completion_date : Option Nat := none
  authority_feedback : Option (List Char) := none
  authority_comment : Option (List Char) := none
  deriving DecidableEq, Repr

/-- SnagsPage deleted-event reconciliation (App.js 1547-1549):
`setSnags(prev => prev.filter(s => s.id !== message.data.id))`. -/
def applyDeleted (x : Nat) (prev : List Snag) : List Snag :=
  prev.filter (fun s => s.id != x)

/-- JS `a.includes(b)`: `b` occurs as a contiguous substring of `a`. -/
def jsIncludes (hay needle : List Char) : Bool :=
  decide (needle <:+: hay)

/-- JS `str.toLowerCase()`, character by character. -/
def lowerStr (s : List Char) : List Char :=
  s.map Char.toLower

/-- `snag.field?.toLowerCase().includes(search)`: optional chaining yields a
falsy value when the field is null/undefined, so the disjunct is `false`. -/
def optFieldIncludes (field : Option (List Char)) (search : List Char) : Bool :=
  match field with
  | none => false
  | some f => jsIncludes (lowerStr f) search

/-- SnagsPage `filteredSnags` predicate (App.js 1607-1616): an empty search
matches every row (`if (!filters.search) return true`); otherwise the
lowercased search must occur in the lowercased description, location or
project name, or in `String(snag.query_no)`. -/
def matchesSearch (search : List Char) (s : Snag) : Bool :=
  if search.isEmpty then true
  else
    let q := lowerStr search
    optFieldIncludes s.description q || optFieldIncludes s.location q ||
      optFieldIncludes s.project_name q || jsIncludes (Nat.repr s.query_no).data q

/-- SnagsPage `filteredSnags` (App.js 1606-1617). -/
def filteredSnags (snags : List Snag) (search : List Char) : List Snag :=
  snags.filter (matchesSearch search)

/-- `Math.ceil(filteredSnags.length / itemsPerPage)` (App.js 1620), on
naturals for a positive page size. -/
def totalPages (len itemsPerPage : Nat) : Nat :=
  (len + itemsPerPage - 1) / itemsPerPage

/-- State of the WebSocketProvider (App.js 248-335): whether `wsRef` holds
an open socket, whether a `close` event for that socket is queued but not
yet handled, whether `reconnectTimeoutRef` holds a pending timer, and how
many connection attempts (`new WebSocket(...)` in `connect`) have run.
`WS_URL` is taken as configured, matching the guard in the code. -/
structure WSClient where
  socketOpen : Bool
  oncloseQueued : Bool
  timerArmed : Bool
  connectRuns : Nat
  deriving DecidableEq, Repr

/-- The events that drive the WebSocketProvider: the two calls of its public
API, the socket's asynchronous `close` event, and the reconnect timer
expiring. -/
inductive WSEvent where
  | userConnect
  | userDisconnect
  | oncloseFires
  | timerFires
  deriving DecidableEq, Repr

/-- `connect()` (App.js 255-306): returns at once when the socket is already
open; otherwise constructs a fresh socket (counted as a connection
attempt). -/
def wsConnect (s : WSClient) : WSClient :=
  if s.socketOpen then s
  else { s with socketOpen := true, connectRuns := s.connectRuns + 1 }

/-- `disconnect()` (App.js 308-315): `clearTimeout` on any pending reconnect
timer, then `close()` on the held socket. Closing an open socket queues its
`close` event; `close()` on an already-closed socket is a no-op. -/
def wsDisconnect (s : WSClient) : WSClient :=
  { s with timerArmed := false
           socketOpen := false
           oncloseQueued := s.oncloseQueued || s.socketOpen }

/-- The `onclose` handler (App.js 291-298): marks the UI disconnected and,
`WS_URL` being set, arms the 3-second reconnect timer
(`reconnectTimeoutRef.current = setTimeout(connect, 3000)`), regardless of
why the socket closed. -/
def wsOnclose (s : WSClient) : WSClient :=
  if s.oncloseQueued then { s with oncloseQueued := false, timerArmed := true }
  else s

/-- The reconnect timer expiring: runs `connect` (App.js 296). -/
def wsTimer (s : WSClient) : WSClient :=
  if s.timerArmed then wsConnect { s with timerArmed := false } else s

/-- One step of the WebSocketProvider under an event. -/
def wsStep (s : WSClient) : WSEvent → WSClient
  | .userConnect => wsConnect s
  | .userDisconnect => wsDisconnect s
  | .oncloseFires => wsOnclose s
  | .timerFires => wsTimer s

/-- Run the WebSocketProvider over a sequence of events. -/
def wsRun (s : WSClient) (evs : List WSEvent) : WSClient :=
  evs.foldl wsStep s

/-- A connected channel: open socket, no pending close event, no timer. -/
def wsConnected : WSClient :=
  { socketOpen := true, oncloseQueued := false, timerArmed := false, connectRuns := 0 }

/-- A channel in the 3-second delay window after an unexpected drop: socket
closed, `onclose` already handled, reconnect timer armed. -/
def wsDelayWindow : WSClient :=
  { socketOpen := false, oncloseQueued := false, timerArmed := true, connectRuns := 0 }

/-- A registered Event Bus listener, abstracted to an identifier and whether
its callback throws on the event under consideration. -/
structure Listener where
  id : Nat
  throws : Bool
  deriving DecidableEq, Repr

/-- `listenersRef.current.forEach(listener => listener(message))`
(App.js 284): listeners run in registration order; an exception thrown by a
listener propagates out of `forEach`, so the listeners after it are not
invoked. Returns the ids that were invoked and whether an exception
escaped. -/
def deliverAll : List Listener → List Nat × Bool
  | [] => ([], false)
  | l :: rest =>
    if l.throws then ([l.id], true)
    else
      let r := deliverAll rest
      (l.id :: r.1, r.2)

/-- The `event` field of a `snag_update` frame. -/
inductive EventKind where
  | created
  | updated
  | deleted
  | otherEvent
  deriving DecidableEq, Repr

/-- An incoming websocket frame: either text that is not valid JSON
(`JSON.parse` throws), or a decoded object with an optional `type` field and
an optional `event` / `data.id` payload. -/
inductive RawFrame where
  | malformed
  | frame (ty : Option (List Char)) (ev : Option EventKind) (dataId : Option Nat)
  deriving DecidableEq, Repr

/-- The frame type `'snag_update'`. -/
def snagUpdateType : List Char := "snag_update".data

/-- The frame type `'notification'`. -/
def notificationType : List Char := "notification".data

/-- `message.type === 'snag_update' || message.type === 'notification'`
(App.js 281). -/
def recognizedType (ty : Option (List Char)) : Bool :=
  ty == some snagUpdateType || ty == some notificationType

/-- The body of the `onmessage` try-block (App.js 277-285) as an `Except`:
`Except.error ids` means an exception reached the surrounding catch after
the listeners in `ids` had already been invoked. A malformed frame throws
inside `JSON.parse`, before any delivery; a frame whose `type` is not
recognized falls through the `if` without delivery. -/
def onmessageTry (listeners : List Listener) : RawFrame → Except (List Nat) (List Nat)
  | .malformed => .error []
  | .frame ty _ _ =>
    if recognizedType ty then
      match deliverAll listeners with
      | (ds, true) => .error ds
      | (ds, false) => .ok ds
    else .ok []

/-- The full `onmessage` handler (App.js 276-289): the catch only logs, so
the handler always returns normally; it never modifies the listener set.
The result is the list of listener ids that were invoked with the event. -/
def onmessage (listeners : List Listener) (r : RawFrame) : List Nat :=
  match onmessageTry listeners r with
  | .ok ds => ds
  | .error ds => ds

/-- How the SnagsPage subscription handler folds an event into its local
state: reload the full snag collection (optionally also the project list),
fetch one snag by id, remove one id locally, or nothing. `refetchOne` never
occurs in the code; it is included so the targeted-re-fetch policy the spec
describes for `updated` is expressible. -/
inductive ReconcileAction where
  | refetchAll (alsoProjects : Bool)
  | refetchOne (id : Nat)
  | removeLocal (id : Nat)
  | noop
  deriving DecidableEq, Repr

/-- SnagsPage subscription handler (App.js 1536-1551): only `snag_update`
frames are handled; `created` runs `loadSnags()` and `loadProjects()`,
`updated` runs `loadSnags()`, `deleted` removes `message.data.id` locally;
anything else does nothing. -/
def snagsPageReconcile (ty : Option (List Char)) (ev : EventKind) (dataId : Nat) :
    ReconcileAction :=
  if ty == some snagUpdateType then
    match ev with
    | .created => .refetchAll true
    | .updated => .refetchAll false
    | .deleted => .removeLocal dataId
    | .otherEvent => .noop
  else .noop

/-- The update payload assembled by the mobile `updateStatus`
(SnagDetailScreen 281-292): always carries the new status; adds
`work_started_date` only when moving to `in_progress` with no start date
yet, and `work_completed_date` only when moving to `resolved` with no
completion date yet. -/
structure StatusUpdate where
  status : Status
  work_started_date : Option Nat
  work_completed_date : Option Nat
  deriving DecidableEq, Repr

/-- The payload construction of the mobile `updateStatus`. -/
def updateStatusData (s : Snag) (newStatus : Status) (now : Nat) : StatusUpdate :=
  { status := newStatus
    work_started_date :=
      if newStatus = .in_progress ∧ s.work_started_date = none then some now else none
    work_completed_date :=
      if newStatus = .resolved ∧ s.work_completed_date = none then some now else none }

/-- Modelled from the spec: the backend merge of `PUT /snags/{id}` (the
FastAPI backend is not under `src/`). Per the §6 mutation contract and the
partial payloads every client sends, fields present in the payload
overwrite the stored snag and absent fields are left untouched.
Specialised to the fields a `StatusUpdate` can carry. -/
def applyStatusUpdate (s : Snag) (u : StatusUpdate) : Snag :=
  { s with status := u.status
           work_started_date :=
             match u.work_started_date with
             | some t => some t
             | none => s.work_started_date
           work_completed_date :=
             match u.work_completed_date with
             | some t => some t
             | none => s.work_completed_date }

/-- The mobile `updateStatus` transition end to end: build the payload from
the locally held snag, apply it. -/
def mobileUpdateStatus (s : Snag) (newStatus : Status) (now : Nat) : Snag :=
  applyStatusUpdate s (updateStatusData s newStatus now)

/-- Web contractor "Start Work": the button is rendered only when
`!snag.work_started_date` (App.js 2449); its handler PUTs
`{ work_started_date: now }` (App.js 2187-2189). When the button is absent
the transition cannot be invoked, so it is a no-op. -/
def webStartWork (s : Snag) (now : Nat) : Snag :=
  if s.work_started_date = none then { s with work_started_date := some now } else s

/-- Web contractor "Mark as Completed": rendered only when
`snag.work_started_date && !snag.work_completed_date` (App.js 2459); its
handler PUTs `{ contractor_completed: true, work_completed_date: now }`
(App.js 2183-2185). -/
def webMarkComplete (s : Snag) (now : Nat) : Snag :=
  if s.work_started_date ≠ none ∧ s.work_completed_date = none then
    { s with contractor_completed := true, work_completed_date := some now }
  else s

/-- Mobile "Mark Work Complete": rendered only when the status is `open` or
`in_progress` and `!snag.contractor_completed` (SnagDetailScreen 885); the
submit PUTs `{ contractor_completed: true, work_completed_date: now }` and
adds `contractor_completion_date` only when the user picked a date
(SnagDetailScreen 324-342). -/
def mobileMarkComplete (s : Snag) (now : Nat) (picked : Option Nat) : Snag :=
  if (s.status = .open_ ∨ s.status = .in_progress) ∧ s.contractor_completed = false then
    { s with contractor_completed := true
             work_completed_date := some now
             contractor_completion_date :=
               match picked with
               | some p => some p
               | none => s.contractor_completion_date }
  else s

/-- Mobile authority-approval gate (SnagDetailScreen 943): the "Approve &
Add Feedback" action is shown iff the user is an authority, the status is
`resolved` or `in_progress`, and the snag is not already
authority-approved. -/
def mobileApproveVisible (role : Role) (s : Snag) : Bool :=
  role == .authority && (s.status == .resolved || s.status == .in_progress) &&
    !s.authority_approved

/-- Web authority-approval gate (App.js 2479 and 2497): the "Approve Work"
button is rendered for every authority and is clickable iff not loading and
`snag.status !== 'resolved'`; no other status value and no
`authority_approved` check disables it. -/
def webApproveClickable (role : Role) (s : Snag) (loading : Bool) : Bool :=
  role == .authority && !(loading || s.status == .resolved)

/-- The availability condition stated by the spec's transition table for
authority approval, written from the spec's words for comparison with the
two gates above. -/
def specApproveAvailable (role : Role) (s : Snag) : Bool :=
  role == .authority && (s.status == .resolved || s.status == .in_progress) &&
    !s.authority_approved

/-- JS `!feedback.trim()`: the feedback text is empty or all whitespace. -/
def isBlank (fb : List Char) : Bool :=
  fb.all Char.isWhitespace

/-- Mobile `submitFeedback` (SnagDetailScreen 302-322): rejected with no
request when the feedback is blank (`none`); otherwise PUTs
`authority_feedback`, `authority_comment`, `authority_approved: true` and
`status: 'verified'`. -/
def submitFeedback (s : Snag) (fb comment : List Char) : Option Snag :=
  if isBlank fb then none
  else
    some { s with authority_feedback := some fb
                  authority_comment := some comment
                  authority_approved := true
                  status := .verified }

/-- The role-gated actions offered by the two snag-detail screens. -/
inductive UIAction where
  | startWork
  | markComplete
  | approve
  | editSnag
  | managerResolve
  deriving DecidableEq, Repr

/-- Render conditions of the web SnagDetailModal's role-based action
buttons (App.js 2440-2519). An action that is not rendered cannot be
invoked, so no network request is ever issued for it: contractor actions
require `isContractor && snag.assigned_contractor_id === user?.id`
(App.js 2443) plus the per-button timestamp guards, the approve button
requires `isAuthority` (App.js 2479), and editing requires `canEdit`
(manager or inspector, App.js 2145). The web client has no explicit
manager-resolve button (managers use the edit form). -/
def webActionAvailable (role : Role) (uid : Nat) (s : Snag) : UIAction → Bool
  | .startWork =>
    role == .contractor && s.assigned_contractor_id == some uid &&
      s.work_started_date == none
  | .markComplete =>
    role == .contractor && s.assigned_contractor_id == some uid &&
      s.work_started_date != none && s.work_completed_date == none
  | .approve => role == .authority
  | .editSnag => role == .manager || role == .inspector
  | .managerResolve => false

/-- `canUpdateStatus()` (SnagDetailScreen 384-389): manager, the assigned
contractor, or any authority. -/
def canUpdateStatus (role : Role) (uid : Nat) (s : Snag) : Bool :=
  role == .manager || (role == .contractor && s.assigned_contractor_id == some uid) ||
    role == .authority

/-- Render conditions of the mobile SnagDetailScreen's action buttons
(SnagDetailScreen 868-951); the whole block is guarded by
`canUpdateStatus()`. -/
def mobileActionAvailable (role : Role) (uid : Nat) (s : Snag) : UIAction → Bool
  | .startWork =>
    canUpdateStatus role uid s &&
      ((role == .contractor && s.status != .verified && s.status == .open_) ||
        (role == .manager && s.status != .verified && s.status == .open_))
  | .markComplete =>
    canUpdateStatus role uid s && role == .contractor && s.status != .verified &&
      (s.status == .in_progress || s.status == .open_) && !s.contractor_completed
  | .approve => canUpdateStatus role uid s && mobileApproveVisible role s
  | .editSnag => role == .manager || role == .inspector
  | .managerResolve =>
    canUpdateStatus role uid s && role == .manager && s.status != .verified &&
      s.status == .in_progress

/-- The roles that can ever see each web action: the role-only projection of
`webActionAvailable`, read off its gates. -/
def webAuthorized (a : UIAction) (role : Role) : Bool :=
  match a with
  | .startWork => role == .contractor
  | .markComplete => role == .contractor
  | .approve => role == .authority
  | .editSnag => role == .manager || role == .inspector
  | .managerResolve => false

/-- The roles that can ever see each mobile action: the role-only
projection of `mobileActionAvailable`. -/
def mobileAuthorized (a : UIAction) (role : Role) : Bool :=
  match a with
  | .startWork => role == .contractor || role == .manager
  | .markComplete => role == .contractor
  | .approve => role == .authority
  | .editSnag => role == .manager || role == .inspector
  | .managerResolve => role == .manager

/-- A resolved, not-yet-approved snag, used as a concrete test input. -/
def exSnagResolved : Snag :=
  { id := 1, query_no := 1, status := .resolved }

/-- An open snag, used as a concrete test input. -/
def exSnagOpen : Snag :=
  { id := 2, query_no := 2, status := .open_ }

/-- A snag with id 3 and short text fields, used as a concrete test input. -/
def exSnag3 : Snag :=
  { id := 3, query_no := 7, description := some "ab".data,
    project_name := some "cd".data }

/-- C7: applying the deleted-event reconciliation for the same id twice
yields the same snapshot as applying it once, and removing an id that is
already absent leaves the snapshot unchanged. -/
theorem c7_deleted_idempotent (x : Nat) (prev : List Snag) :
    applyDeleted x (applyDeleted x prev) = applyDeleted x prev ∧
      ((∀ s ∈ prev, s.id ≠ x) → applyDeleted x prev = prev) := by
  constructor
  · exact List.filter_eq_self.mpr (fun a ha => (List.mem_filter.mp ha).2)
  · intro h
    exact List.filter_eq_self.mpr (fun a ha => by simpa using h a ha)

theorem c7_deleted_idempotent_witness :
    applyDeleted 1 (applyDeleted 1 [exSnag3]) = applyDeleted 1 [exSnag3] ∧
      applyDeleted 1 [exSnag3] = [exSnag3] :=
  ⟨(c7_deleted_idempotent 1 [exSnag3]).1,
    (c7_deleted_idempotent 1 [exSnag3]).2 (by decide)⟩

/-- C10: the deleted-event reconciliation for id `x` only removes snags
whose id is `x`: the result is a sublist of the snapshot (so the relative
order of what remains is preserved), every snag with a different id is
kept, and anything removed had id `x`. -/
theorem c10_deleted_frame (x : Nat) (prev : List Snag) :
    (applyDeleted x prev).Sublist prev ∧
      (∀ s ∈ prev, s.id ≠ x → s ∈ applyDeleted x prev) ∧
      (∀ s ∈ prev, s ∉ applyDeleted x prev → s.id = x) := by
  refine ⟨List.filter_sublist prev, ?_, ?_⟩
  · intro s hs hne
    exact List.mem_filter.mpr ⟨hs, by simpa using hne⟩
  · intro s hs hnot
    by_contra hne
    exact hnot (List.mem_filter.mpr ⟨hs, by simpa using hne⟩)

theorem c10_deleted_frame_witness :
    (applyDeleted 1 [exSnag3, exSnagResolved]).Sublist [exSnag3, exSnagResolved] ∧
      exSnag3 ∈ applyDeleted 1 [exSnag3, exSnagResolved] ∧
      exSnagResolved.id = 1 :=
  ⟨(c10_deleted_frame 1 [exSnag3, exSnagResolved]).1,
    (c10_deleted_frame 1 [exSnag3, exSnagResolved]).2.1 exSnag3 (by decide) (by decide),
    (c10_deleted_frame 1 [exSnag3, exSnagResolved]).2.2 exSnagResolved (by decide) (by decide)⟩

/-- C5 counterexample: for an `updated` snag_update frame carrying id 7, the
SnagsPage handler does not perform the targeted single-snag re-fetch the
claim states. -/
theorem c5_updated_counterexample :
    snagsPageReconcile (some snagUpdateType) .updated 7 ≠ ReconcileAction.refetchOne 7 := by
  decide

/-- C5 amended: for every `updated` snag_update event, the SnagsPage handler
re-fetches the entire snag collection (the same `loadSnags()` used for
`created`, without the project-list reload); it never issues a targeted
single-snag fetch. -/
theorem c5_updated_refetches_all (i : Nat) :
    snagsPageReconcile (some snagUpdateType) .updated i = ReconcileAction.refetchAll false := by
  rfl

/-- C3 (code bug): from a connected channel, `disconnect()` closes the
socket, but when the socket's `close` event then fires, the `onclose`
handler re-arms the reconnect timer and the timer runs `connect` — one
reconnect attempt occurs although the host never called `connect()` again,
contrary to the claim. In the delay-window scenario (timer armed, socket
already closed) `disconnect()` does prevent the pending attempt. -/
theorem c3_disconnect_reconnect_divergence :
    (wsRun wsConnected [.userDisconnect, .oncloseFires, .timerFires]).connectRuns = 1 ∧
      WSEvent.userConnect ∉ [WSEvent.userDisconnect, .oncloseFires, .timerFires] ∧
      (wsRun wsDelayWindow [.userDisconnect, .timerFires]).connectRuns = 0 := by
  decide

/-- C1 (code bug): the mobile gate is exactly the claimed availability
(authority role, status resolved or in_progress, not yet approved) and the
mobile submit sets `authority_approved`, persists feedback and comment,
moves the status to `verified`, and rejects blank feedback; but the web
client's Approve Work button is disabled precisely when
`snag.status === 'resolved'` — unavailable on a resolved unapproved snag
where the claim requires availability, and enabled on an open snag where
the claim requires unavailability. -/
theorem c1_approve_gate_divergence :
    specApproveAvailable .authority exSnagResolved = true ∧
      mobileApproveVisible .authority exSnagResolved = true ∧
      webApproveClickable .authority exSnagResolved false = false ∧
      specApproveAvailable .authority exSnagOpen = false ∧
      webApproveClickable .authority exSnagOpen false = true ∧
      submitFeedback exSnagResolved "ok".data "c".data =
        some { exSnagResolved with authority_feedback := some "ok".data
                                   authority_comment := some "c".data
                                   authority_approved := true
                                   status := .verified } ∧
      submitFeedback exSnagResolved " ".data "c".data = none := by
  decide

/-- C2: re-applying a workflow transition does not overwrite the audit
timestamps it stamped: the mobile `updateStatus` payload omits a timestamp
that is already set, and each button-gated transition is a no-op once its
guard fails, so every modelled transition is idempotent and
`work_started_date`, `work_completed_date` and `contractor_completion_date`
are each set at most once by it. -/
theorem c2_timestamps_set_at_most_once (s : Snag) (t1 t2 : Nat) (p1 p2 : Option Nat) :
    mobileUpdateStatus (mobileUpdateStatus s .in_progress t1) .in_progress t2 =
        mobileUpdateStatus s .in_progress t1 ∧
      mobileUpdateStatus (mobileUpdateStatus s .resolved t1) .resolved t2 =
        mobileUpdateStatus s .resolved t1 ∧
      webStartWork (webStartWork s t1) t2 = webStartWork s t1 ∧
      webMarkComplete (webMarkComplete s t1) t2 = webMarkComplete s t1 ∧
      mobileMarkComplete (mobileMarkComplete s t1 p1) t2 p2 = mobileMarkComplete s t1 p1 := by
  refine ⟨?_, ?_, ?_, ?_, ?_⟩
  · rcases hs : s.work_started_date with _ | t0 <;>
      simp [mobileUpdateStatus, updateStatusData, applyStatusUpdate, hs]
  · rcases hc : s.work_completed_date with _ | t0 <;>
      simp [mobileUpdateStatus, updateStatusData, applyStatusUpdate, hc]
  · rcases hs : s.work_started_date with _ | t0 <;> simp [webStartWork, hs]
  · by_cases h : s.work_started_date ≠ none ∧ s.work_completed_date = none
    · simp [webMarkComplete, h, h.1]
    · simp [webMarkComplete, h]
  · by_cases h : (s.status = .open_ ∨ s.status = .in_progress) ∧ s.contractor_completed = false
    · simp [mobileMarkComplete, h]
    · simp [mobileMarkComplete, h]

/-- C4 counterexample: with a throwing listener registered before listener
1 and a recognized frame delivered, listener 1 — registered and distinct
from the thrower — never receives the event, so a throwing listener does
break delivery to other registered listeners. -/
theorem c4_listener_throw_counterexample :
    recognizedType (some snagUpdateType) = true ∧
      Listener.mk 1 false ∈ [Listener.mk 0 true, Listener.mk 1 false] ∧
      (1 : Nat) ∉ onmessage [Listener.mk 0 true, Listener.mk 1 false]
        (.frame (some snagUpdateType) (some .updated) (some 3)) := by
  decide

/-- `forEach` delivery around the first throwing listener: everything
before it is invoked, it is invoked, everything after it is skipped, and
the exception escapes the loop. -/
theorem deliverAll_append_throw (pre post : List Listener) (l : Listener)
    (hpre : ∀ p ∈ pre, p.throws = false) (hl : l.throws = true) :
    deliverAll (pre ++ l :: post) = (pre.map Listener.id ++ [l.id], true) := by
  induction pre with
  | nil => simp [deliverAll, hl]
  | cons p rest ih =>
    have hp : p.throws = false := hpre p (by simp)
    have hr := ih (fun q hq => hpre q (by simp [hq]))
    simp [deliverAll, hp, hr]

/-- C4 amended: a throwing listener stays registered (the handler never
touches the listener set) and its exception is caught at the handler level,
but delivery of that event stops at the first throwing listener: every
listener registered before it receives the event and no listener after it
does. -/
theorem c4_listener_throw_amended (pre post : List Listener) (l : Listener)
    (ty : Option (List Char)) (ev : Option EventKind) (d : Option Nat)
    (hty : recognizedType ty = true) (hpre : ∀ p ∈ pre, p.throws = false)
    (hl : l.throws = true) :
    onmessage (pre ++ l :: post) (.frame ty ev d) = pre.map Listener.id ++ [l.id] := by
  simp [onmessage, onmessageTry, hty, deliverAll_append_throw pre post l hpre hl]

theorem c4_listener_throw_amended_witness :
    onmessage [Listener.mk 5 false, Listener.mk 0 true, Listener.mk 1 false]
        (.frame (some snagUpdateType) none none) = [5, 0] := by
  have h := c4_listener_throw_amended [Listener.mk 5 false] [Listener.mk 1 false]
    (Listener.mk 0 true) (some snagUpdateType) none none (by decide) (by decide) (by decide)
  simpa using h

/-- C6: a role outside an action's gating roles never sees that action on
either client, so the transition cannot be invoked there and no network
request is issued for it (the mutation handlers are reachable only from the
rendered buttons). In particular a contractor never sees authority
approval. -/
theorem c6_role_gate (role : Role) (uid : Nat) (s : Snag) (a : UIAction)
    (hw : webAuthorized a role = false) (hm : mobileAuthorized a role = false) :
    webActionAvailable role uid s a = false ∧ mobileActionAvailable role uid s a = false := by
  cases a <;> cases role <;>
    simp_all [webActionAvailable, mobileActionAvailable, webAuthorized, mobileAuthorized,
      canUpdateStatus, mobileApproveVisible]

theorem c6_role_gate_witness :
    webActionAvailable .contractor 9 exSnagResolved .approve = false ∧
      mobileActionAvailable .contractor 9 exSnagResolved .approve = false :=
  c6_role_gate .contractor 9 exSnagResolved .approve (by decide) (by decide)

/-- C8: a frame that is not valid JSON, or whose decoded object lacks a
recognized `type`, is dropped silently: the handler returns normally
through its catch, and no listener is invoked — neither on the normal path
nor before any caught exception. -/
theorem c8_malformed_dropped (listeners : List Listener) (r : RawFrame)
    (h : r = .malformed ∨ ∃ ty ev d, r = .frame ty ev d ∧ recognizedType ty = false) :
    onmessage listeners r = [] ∧
      (∀ ids, onmessageTry listeners r = Except.error ids → ids = []) := by
  rcases h with rfl | ⟨ty, ev, d, rfl, hty⟩
  · refine ⟨rfl, fun ids hh => ?_⟩
    simp [onmessageTry] at hh
    exact hh
  · refine ⟨by simp [onmessage, onmessageTry, hty], fun ids hh => ?_⟩
    simp [onmessageTry, hty] at hh

theorem c8_malformed_dropped_witness :
    onmessage [Listener.mk 0 false] .malformed = [] ∧
      (∀ ids, onmessageTry [Listener.mk 0 false] .malformed = Except.error ids → ids = []) :=
  c8_malformed_dropped [Listener.mk 0 false] .malformed (Or.inl rfl)

/-- C9: when the search text occurs (case-insensitively) in no snag's
description, location, project name, or decimal query-number rendering, the
filtered view has zero rows and the page count is 0. -/
theorem c9_no_match_zero_rows (snags : List Snag) (search : List Char) (ipp : Nat)
    (hipp : 0 < ipp)
    (h : ∀ s ∈ snags,
      (∀ d, s.description = some d → ¬ lowerStr search <:+: lowerStr d) ∧
        (∀ d, s.location = some d → ¬ lowerStr search <:+: lowerStr d) ∧
        (∀ d, s.project_name = some d → ¬ lowerStr search <:+: lowerStr d) ∧
        ¬ lowerStr search <:+: (Nat.repr s.query_no).data) :
    filteredSnags snags search = [] ∧
      totalPages (filteredSnags snags search).length ipp = 0 := by
  have key : ∀ s ∈ snags, ¬ matchesSearch search s = true := by
    intro s hs hmatch
    have hsp := h s hs
    cases search with
    | nil => exact hsp.2.2.2 (by simp [lowerStr])
    | cons c cs =>
      simp only [matchesSearch, List.isEmpty_cons, Bool.false_eq_true, if_false,
        Bool.or_eq_true] at hmatch
      rcases hmatch with ((h1 | h2) | h3) | h4
      · rcases hd : s.description with _ | d
        · simp [optFieldIncludes, hd] at h1
        · simp [optFieldIncludes, hd, jsIncludes] at h1
          exact hsp.1 d hd h1
      · rcases hd : s.location with _ | d
        · simp [optFieldIncludes, hd] at h2
        · simp [optFieldIncludes, hd, jsIncludes] at h2
          exact hsp.2.1 d hd h2
      · rcases hd : s.project_name with _ | d
        · simp [optFieldIncludes, hd] at h3
        · simp [optFieldIncludes, hd, jsIncludes] at h3
          exact hsp.2.2.1 d hd h3
      · simp [jsIncludes] at h4
        exact hsp.2.2.2 h4
  have hfil : filteredSnags snags search = [] := List.filter_eq_nil_iff.mpr key
  refine ⟨hfil, ?_⟩
  rw [hfil]
  show (0 + ipp - 1) / ipp = 0
  exact Nat.div_eq_of_lt (by omega)

theorem c9_no_match_zero_rows_witness :
    filteredSnags [exSnag3] "zz".data = [] ∧
      totalPages (filteredSnags [exSnag3] "zz".data).length 10 = 0 :=
  c9_no_match_zero_rows [exSnag3] "zz".data 10 (by decide)
    (by
      intro s hs
      have hs3 : s = exSnag3 := List.mem_singleton.mp hs
      subst hs3
      refine ⟨?_, ?_, ?_, ?_⟩
      · intro d hd
        have hd2 : d = "ab".data := by
          have := hd
          simp [exSnag3] at this
          exact this.symm
        subst hd2
        decide
      · intro d hd
        simp [exSnag3] at hd
      · intro d hd
        have hd2 : d = "cd".data := by
          have := hd
          simp [exSnag3] at this
          exact this.symm
        subst hd2
        decide
      · decide)
